import Mathlib

/-!
Shallow embedding of the nanonis_reader utility module
(src/nanonis_reader/util.py): the glob-based file resolver and loader
(class NanonisData) and the slide-deck report builder (class DataToPPT).

Modelling conventions:
- Python exceptions become an explicit error type `Exc`; the distinction
  between ValueError (the only kind the batch loop catches), KeyError
  (raised by dictionary lookups on missing header keys), TypeError and
  NameError is preserved because the error-handling claims depend on it.
- Machine floats become rationals; the one genuinely irrational
  computation (the standard deviation used by get_3sigma_limits) is
  modelled over the reals with Real.sqrt.
- Heterogeneous header values (numbers, strings, 2-tuples) become the
  inductive `HVal`.
- Python dicts built by literals are modelled as the ordered list of
  assignments; `pyGet` returns the value of the LAST assignment of a key,
  which is exactly the value the Python dict holds for that key.
- The filesystem seen through glob.glob is modelled as the list of file
  names in the base directory, in the order glob returns them, plus a
  total parsing collaborator `load` (the nanonis_sxm/dat/3ds Load
  functions are external collaborators and are not part of this repo).
- Plot rendering is delegated to matplotlib in the source; each produced
  in-memory image buffer is modelled by a tag in `Img` recording which
  plot was rendered.
-/

deriving instance DecidableEq for Except

/-- str.endswith: whether `suf` is a suffix of `s`. -/
def strEndsWith (s suf : String) : Bool :=
  suf.toList.isSuffixOf s.toList

/-- Kinds of Python exception the module can raise.  `valueError` models
ValueError, `keyError` models KeyError from a missing dictionary key,
`typeError` models TypeError from destructuring a value of the wrong
shape, `nameError` models NameError from reading an unbound local. -/
inductive Exc where
  | valueError (msg : String)
  | keyError (key : String)
  | typeError (msg : String)
  | nameError (name : String)
deriving DecidableEq, Repr

/-- A heterogeneous header value: a number, a string, or a pair of
numbers (scan_pixels / scan_range are 2-element arrays). -/
inductive HVal where
  | num (q : ℚ)
  | str (s : String)
  | pair (a b : ℚ)
deriving DecidableEq, Repr

/-- The record a format parser collaborator returns and whose public
attributes NanonisData.__init__ copies onto itself: a file name, a
header mapping and the set of signal-channel names (only key membership
of `signals` is ever used by util.py). -/
structure FileData where
  fname : String
  header : List (String × HVal)
  signals : List String
deriving DecidableEq, Repr

/-- The filesystem model: the names in the base directory in the order
glob.glob returns them, and the (total) parser collaborator giving the
FileData for a path. -/
structure FS where
  listing : List String
  load : String → FileData

/-- str(n).zfill(w): pad a string on the left with the digit 0 up to
width `w`. -/
def zfill (w : Nat) (s : String) : String :=
  String.mk (List.replicate (w - s.toList.length) (Char.ofNat 48)) ++ s

/-- Whether the character sequence `p` occurs contiguously inside `l`. -/
def containsSeq (p l : List Char) : Bool :=
  l.tails.any fun t => p.isPrefixOf t

/-- Whether `name` matches the glob pattern  *_<nstr>.*  : some
occurrence of underscore, the index string and a dot, in that order,
appears inside the name. -/
def matchesIndexPat (nstr : String) (name : String) : Bool :=
  containsSeq ("_" ++ nstr ++ ".").toList name.toList

/-- Whether `name` matches the glob pattern  *<kw>*_<nstr>.*  : the
keyword occurs somewhere, and `_<nstr>.` occurs after it. -/
def matchesKeywordPat (kw : String) (nstr : String) (name : String) : Bool :=
  name.toList.tails.any fun t =>
    kw.toList.isPrefixOf t &&
      containsSeq ("_" ++ nstr ++ ".").toList (List.drop kw.toList.length t)

/-- The glob pattern NanonisData.__init__ builds (util.py lines 31-34):
with a truthy keyword it globs  *<keyword>*_<nstr>.*  , otherwise
*_<nstr>.*  (an empty keyword string is falsy in Python and selects the
keyword-less pattern). -/
def matchesGlob (keyword : Option String) (nstr : String) (name : String) : Bool :=
  match keyword with
  | some kw => if kw.isEmpty then matchesIndexPat nstr name
               else matchesKeywordPat kw nstr name
  | none => matchesIndexPat nstr name

/-- File-path resolution of NanonisData.__init__ (util.py lines 26-50):
zero-pad the number to 4 digits, glob, fail with a ValueError whose
message starts with: No file found - when nothing matches, warn (the
returned list of all matches models the printed warning) and take the
first match when more than one matches. -/
def resolveFile (listing : List String) (file_number : Nat) (keyword : Option String) :
    Except Exc (String × List String) :=
  let nstr := zfill 4 (toString file_number)
  match listing.filter (matchesGlob keyword nstr) with
  | [] => .error (.valueError (match keyword with
      | some kw => if kw.isEmpty then "No file found with number " ++ nstr
                   else "No file found with number " ++ nstr ++ " and keyword " ++ kw
      | none => "No file found with number " ++ nstr))
  | f :: rest => .ok (f, if rest.isEmpty then [] else f :: rest)

/-- os.path.splitext on a file name: split at the last dot; a name with
no dot has the empty extension. -/
def splitext (s : String) : String × String :=
  let cs := s.toList
  let afterDot := (cs.reverse.takeWhile (fun c => c ≠ Char.ofNat 46)).reverse
  if afterDot.length = cs.length then (s, "")
  else (String.mk (cs.take (cs.length - afterDot.length - 1)),
        String.mk (Char.ofNat 46 :: afterDot))

/-- NanonisData.__init__ (util.py lines 12-65), numeric-index branch:
resolve the path, dispatch on the extension to one of the three parser
collaborators (whose result attributes are copied onto the object, i.e.
returned directly here), and raise ValueError for an unsupported
extension. -/
def nanonisData (fs : FS) (file_number : Nat) (keyword : Option String) :
    Except Exc FileData := do
  let (path, _warnings) ← resolveFile fs.listing file_number keyword
  let ext := (splitext path).2
  if ext = ".sxm" ∨ ext = ".dat" ∨ ext = ".3ds" then
    pure (fs.load path)
  else
    .error (.valueError ("Unsupported file extension: " ++ ext))

/-- Lookup of the value a Python dict built from the given ordered list
of key assignments holds for `k`: the value of the LAST assignment of
`k` (a repeated key in a dict literal keeps the later value). -/
def pyGet (ps : List (String × HVal)) (k : String) : Option HVal :=
  ps.reverse.lookup k

/-- Python dict membership:  k in params  . -/
def hasKey (ps : List (String × HVal)) (k : String) : Prop :=
  k ∈ ps.map Prod.fst

instance (ps : List (String × HVal)) (k : String) : Decidable (hasKey ps k) := by
  unfold hasKey; infer_instance

/-- data.header[k] with KeyError on a missing key. -/
def hget (h : List (String × HVal)) (k : String) : Except Exc HVal :=
  match h.lookup k with
  | some v => .ok v
  | none => .error (.keyError k)

/-- Coerce a header value to a string (TypeError when it is not one, as
calling .split on a non-string would fail in Python). -/
def asStr (v : HVal) : Except Exc String :=
  match v with
  | .str s => .ok s
  | _ => .error (.typeError "expected a string value")

/-- float(v): coerce a header value to a number. -/
def asNum (v : HVal) : Except Exc ℚ :=
  match v with
  | .num q => .ok q
  | _ => .error (.typeError "expected a numeric value")

/-- Coerce a header value to a 2-tuple (TypeError when indexing a value
that is not a pair). -/
def asPair (v : HVal) : Except Exc (ℚ × ℚ) :=
  match v with
  | .pair a b => .ok (a, b)
  | _ => .error (.typeError "expected a pair value")

/-- data.header[k] coerced to a string. -/
def hgetStr (h : List (String × HVal)) (k : String) : Except Exc String := do
  asStr (← hget h k)

/-- Split a character list at every occurrence of `sep`, keeping empty
pieces, exactly as the Python single-separator str.split does. -/
def splitChar (sep : Char) : List Char → List (List Char)
  | [] => [[]]
  | c :: rest =>
    if c = sep then [] :: splitChar sep rest
    else match splitChar sep rest with
      | [] => [[c]]
      | h :: t => (c :: h) :: t

/-- date_str.split(sep) for a one-character separator. -/
def pySplit (sep : Char) (s : String) : List String :=
  (splitChar sep s.toList).map String.mk

/-- format_date inside DataToPPT.get_sxm_parameters (util.py lines
101-109): split on dots; a day.month.year string becomes
year.month.day; any input that does not split into exactly three parts
makes the tuple unpacking raise, the bare except catches it, and the
original string is returned unchanged. -/
def format_date (date_str : String) : String :=
  match pySplit (Char.ofNat 46) date_str with
  | [day, month, year] => year ++ "." ++ month ++ "." ++ day
  | _ => date_str

/-- format_date inside DataToPPT.get_dat_parameters (util.py lines
130-145): split into date and time on the single space, reorder the
date part, and rejoin with an underscore; any failure (wrong number of
spaces or dots) returns the original string unchanged. -/
def format_date_dat (date_str : String) : String :=
  match pySplit (Char.ofNat 32) date_str with
  | [date_part, time_part] =>
    match pySplit (Char.ofNat 46) date_part with
    | [day, month, year] => year ++ "." ++ month ++ "." ++ day ++ "_" ++ time_part
    | _ => date_str
  | _ => date_str

/-- DataToPPT.get_sxm_parameters (util.py lines 96-123): fixed header
lookups building the parameter dict, then the appended assignment
params aspect_ratio = (pixels 0 / pixels 1) * (range 1 / range 0). -/
def get_sxm_parameters (data : FileData) : Except Exc (List (String × HVal)) := do
  let pixels ← hget data.header "scan_pixels"
  let srange ← hget data.header "scan_range"
  let sdir ← hget data.header "scan_dir"
  let sangle ← hget data.header "scan_angle"
  let bias ← hget data.header "bias>bias (v)"
  let current ← hget data.header "z-controller>setpoint"
  let stime ← hget data.header "rec_time"
  let sdate ← hgetStr data.header "rec_date"
  let params := [("pixels", pixels), ("range", srange), ("direction", sdir),
    ("angle", sangle), ("bias", bias), ("current", current),
    ("scan_time", stime), ("scan_date", HVal.str (format_date sdate))]
  let (px, py) ← asPair pixels
  let (rx, ry) ← asPair srange
  pure (params ++ [("aspect_ratio", HVal.num (px / py * (ry / rx)))])

/-- DataToPPT.get_dat_parameters (util.py lines 125-169): when the
signals mapping has the key  Z rel (m)  the Z-sweep dict literal is
built (note it assigns sweep_num twice: first the Bias Spectroscopy
value, then the Z Spectroscopy value, and the later assignment is the
one the dict keeps); otherwise the bias-sweep dict is built. -/
def get_dat_parameters (data : FileData) : Except Exc (List (String × HVal)) := do
  if "Z rel (m)" ∈ data.signals then
    let bias ← hget data.header "Bias>Bias (V)"
    let current ← hget data.header "Z-Controller>Setpoint"
    let sweepNumBias ← hget data.header "Bias Spectroscopy>Number of sweeps"
    let offset ← hget data.header "Z Spectroscopy>Initial Z-offset (m)"
    let sweepZ ← hget data.header "Z Spectroscopy>Sweep distance (m)"
    let sweepNumZ ← hget data.header "Z Spectroscopy>Number of sweeps"
    let comment ← hget data.header "Comment01"
    let savedDate ← hgetStr data.header "Saved Date"
    pure [("bias", bias), ("current", current), ("sweep_num", sweepNumBias),
      ("offset", offset), ("sweep_z", sweepZ), ("sweep_num", sweepNumZ),
      ("comment", comment), ("saved_date", HVal.str (format_date_dat savedDate))]
  else
    let bias ← hget data.header "Bias>Bias (V)"
    let current ← hget data.header "Z-Controller>Setpoint"
    let sweepStart ← hget data.header "Bias Spectroscopy>Sweep Start (V)"
    let sweepEnd ← hget data.header "Bias Spectroscopy>Sweep End (V)"
    let sweepNum ← hget data.header "Bias Spectroscopy>Number of sweeps"
    let comment ← hget data.header "Comment01"
    let savedDate ← hgetStr data.header "Saved Date"
    pure [("bias", bias), ("current", current), ("sweep_start", sweepStart),
      ("sweep_end", sweepEnd), ("sweep_num", sweepNum),
      ("comment", comment), ("saved_date", HVal.str (format_date_dat savedDate))]

/-- DataToPPT.get_3ds_parameters (util.py lines 173-179): returns an
empty parameter dict. -/
def get_3ds_parameters (_data : FileData) : Except Exc (List (String × HVal)) :=
  pure []

/-- DataToPPT.get_scan_parameters (util.py lines 83-94): dispatch on
the file-name suffix; an unrecognised suffix raises ValueError. -/
def get_scan_parameters (data : FileData) : Except Exc (List (String × HVal)) :=
  if strEndsWith data.fname ".sxm" then get_sxm_parameters data
  else if strEndsWith data.fname ".dat" then get_dat_parameters data
  else if strEndsWith data.fname ".3ds" then get_3ds_parameters data
  else .error (.valueError ("Unsupported file type: " ++ data.fname))

/-- params[k] on an extracted parameter dict (KeyError when absent). -/
def pget (ps : List (String × HVal)) (k : String) : Except Exc HVal :=
  match pyGet ps k with
  | some v => .ok v
  | none => .error (.keyError k)

/-- Python  f-string  rendering with format spec .0f: round to the
nearest integer (the model rounds over the rationals). -/
def fmt0 (q : ℚ) : String := toString (round q)

/-- Python  f-string  rendering with format spec .1f: one decimal. -/
def fmt1 (q : ℚ) : String :=
  let n : ℤ := round (q * 10)
  (if n < 0 then "-" else "") ++ toString (n.natAbs / 10) ++ "." ++ toString (n.natAbs % 10)

/-- str(float(q)) in an f-string; the model renders the rational
directly (only the textual shape differs from the float repr). -/
def pyFloatStr (q : ℚ) : String := toString q

/-- str(v) for a raw header value interpolated into an f-string. -/
def pyShow : HVal → String
  | .num q => toString q
  | .str s => s
  | .pair a b => "(" ++ toString a ++ ", " ++ toString b ++ ")"

/-- DataToPPT.get_sxm_info_text (util.py lines 181-198): caption text
assembled from bias, setpoint current (nA above 1e-9 A, else pA), scan
range in nm, direction and angle, and the date_time stamp. -/
def get_sxm_info_text (params : List (String × HVal)) : Except Exc String := do
  let bias ← asNum (← pget params "bias")
  let current ← asNum (← pget params "current")
  let curText := if (1 : ℚ)/10^9 ≤ |current| then fmt0 (current * 10^9) ++ " nA"
                 else fmt0 (current * 10^12) ++ " pA"
  let (rx, ry) ← asPair (← pget params "range")
  let sdir ← asStr (← pget params "direction")
  let sangle ← asNum (← pget params "angle")
  let sdate ← asStr (← pget params "scan_date")
  let stime ← asStr (← pget params "scan_time")
  pure (String.intercalate " "
    [pyFloatStr bias ++ " V /", curText,
     "\n" ++ fmt0 (rx * 10^9) ++ " x " ++ fmt0 (ry * 10^9) ++ " nm²",
     "(" ++ sdir ++ ", " ++ fmt1 sangle ++ "˚)",
     "\n(" ++ sdate ++ "_" ++ stime ++ ")"])

/-- DataToPPT.get_dat_info_text (util.py lines 200-228): caption text
for a point-spectroscopy file; with a sweep_z entry only bias, current
and date are shown, otherwise the sweep bounds and count are added. -/
def get_dat_info_text (params : List (String × HVal)) : Except Exc String := do
  if hasKey params "sweep_z" then
    let bias ← asNum (← pget params "bias")
    let current ← asNum (← pget params "current")
    let curText := if (1 : ℚ)/10^9 ≤ |current| then fmt0 (current * 10^9) ++ " nA"
                   else fmt0 (current * 10^12) ++ " pA"
    let sdate ← asStr (← pget params "saved_date")
    pure (String.intercalate " "
      [pyFloatStr bias ++ " V /", curText, "\n(" ++ sdate ++ ")"])
  else
    let bias ← asNum (← pget params "bias")
    let current ← asNum (← pget params "current")
    let curText := if (1 : ℚ)/10^9 ≤ |current| then fmt0 (current * 10^9) ++ " nA"
                   else fmt0 (current * 10^12) ++ " pA"
    let sweepStart ← asNum (← pget params "sweep_start")
    let sweepEnd ← asNum (← pget params "sweep_end")
    let sweepNum ← pget params "sweep_num"
    let sdate ← asStr (← pget params "saved_date")
    pure (String.intercalate " "
      [pyFloatStr bias ++ " V /", curText,
       "\n" ++ pyFloatStr sweepStart ++ " V to " ++ pyFloatStr sweepEnd ++
         " V (sweeps: " ++ pyShow sweepNum ++ ")",
       "\n(" ++ sdate ++ ")"])

/-- DataToPPT.get_3ds_info_text (util.py lines 230-235). -/
def get_3ds_info_text (_params : List (String × HVal)) : String :=
  "3DS file parameters"

/-- The sample arrays handed to get_3sigma_limits are numpy arrays of
floats; the model flattens them to a list in which a missing entry
(NaN) is none.  nanValues collects the non-NaN entries. -/
def nanValues (xs : List (Option ℚ)) : List ℚ := xs.filterMap id

/-- np.nanmean: mean of the non-NaN entries (the model lets the empty
mean be 0 where numpy would produce NaN with a warning). -/
def nanmean (xs : List (Option ℚ)) : ℚ :=
  (nanValues xs).sum / ((nanValues xs).length : ℚ)

/-- The variance np.nanstd takes the square root of: the mean of the
squared deviations of the non-NaN entries (ddof = 0, the numpy
default). -/
def nanvar (xs : List (Option ℚ)) : ℚ :=
  ((nanValues xs).map fun x => (x - nanmean xs)^2).sum / ((nanValues xs).length : ℚ)

/-- np.nanstd: the square root of the mean squared deviation. -/
noncomputable def nanstd (xs : List (Option ℚ)) : ℝ :=
  Real.sqrt ((nanvar xs : ℚ) : ℝ)

/-- DataToPPT.get_3sigma_limits (util.py lines 237-240):
mean + np.array([-3, 3]) * sigma, the pair of colour-scale bounds. -/
noncomputable def get_3sigma_limits (xs : List (Option ℚ)) : ℝ × ℝ :=
  (((nanmean xs : ℚ) : ℝ) + (-3) * nanstd xs,
   ((nanmean xs : ℚ) : ℝ) + 3 * nanstd xs)

/-- A rendered in-memory image buffer, tagged with which of the fixed
plots produced it (the pixel content is drawn by the matplotlib
collaborator and is outside the model). -/
inductive Img where
  | sxmTopo
  | sxmDeriv
  | sxmDemod
  | datIZ
  | datIZLog
  | datDidvScaled
  | datDidvNorm
  | datIV
  | threeDS
deriving DecidableEq, Repr

/-- DataToPPT.process_sxm_file (util.py lines 242-328): extract the
parameters (their lookups can raise), render the flattened height map
and its derivative, and additionally the lock-in demodulation map when
the signals mapping has the key LI_Demod_1_X.  The drawing itself
(imshow, colorbars, savefig into BytesIO) is collaborator work; the
model records which buffers are produced, in order. -/
def process_sxm_file (data : FileData) : Except Exc (List Img) := do
  let _params ← get_scan_parameters data
  if "LI_Demod_1_X" ∈ data.signals then
    pure [Img.sxmTopo, Img.sxmDeriv, Img.sxmDemod]
  else
    pure [Img.sxmTopo, Img.sxmDeriv]

/-- DataToPPT.process_dat_file (util.py lines 330-403): with a sweep_z
parameter the linear and log current-height curves are rendered,
otherwise the scaled dI/dV, normalized dI/dV and raw I-V curves. -/
def process_dat_file (data : FileData) : Except Exc (List Img) := do
  let params ← get_dat_parameters data
  if hasKey params "sweep_z" then
    pure [Img.datIZ, Img.datIZLog]
  else
    pure [Img.datDidvScaled, Img.datDidvNorm, Img.datIV]

/-- DataToPPT.process_3ds_file (util.py lines 405-417): the stub
renders an empty figure into one buffer. -/
def process_3ds_file (_data : FileData) : Except Exc Img :=
  pure Img.threeDS

/-- One slide of the report document: the title shape text, the picture
buffers laid onto the slide by add_picture in order, and the text of
the caption text box. -/
structure Slide where
  title : String
  pictures : List Img
  caption : String
deriving DecidableEq, Repr

/-- DataToPPT.add_slide (util.py lines 419-494): add a slide titled
File: <fname>, then per extension: for .sxm lay the two or three
process_sxm_file buffers; for .dat the two or three process_dat_file
buffers; for .3ds compute the parameters and the placeholder buffer but
lay NO picture (the source never calls add_picture in that branch);
then add the caption text box (an empty caption is replaced by the
fixed fallback text).  A file of no known extension leaves info_text
unbound and raises NameError at the text-box line. -/
def add_slide (data : FileData) : Except Exc Slide := do
  let title := "File: " ++ data.fname
  if strEndsWith data.fname ".sxm" then
    let params ← get_scan_parameters data
    let imgs ← process_sxm_file data
    let info ← get_sxm_info_text params
    pure ⟨title, imgs, if info.isEmpty then "No parameters available" else info⟩
  else if strEndsWith data.fname ".dat" then
    let params ← get_dat_parameters data
    let imgs ← process_dat_file data
    let info ← get_dat_info_text params
    pure ⟨title, imgs, if info.isEmpty then "No parameters available" else info⟩
  else if strEndsWith data.fname ".3ds" then
    let params ← get_scan_parameters data
    let info := get_3ds_info_text params
    let _img ← process_3ds_file data
    pure ⟨title, [], if info.isEmpty then "No parameters available" else info⟩
  else
    .error (.nameError "info_text")

/-- The growing document and console log of a batch run. -/
structure PPTState where
  slides : List Slide
  logs : List String
deriving DecidableEq, Repr

/-- One full iteration body of the generate_ppt loop before its
exception handling: load the file for index `i` and build its slide. -/
def processIndex (fs : FS) (keyword : Option String) (i : Nat) : Except Exc Slide := do
  let data ← nanonisData fs i keyword
  add_slide data

/-- One iteration of the generate_ppt loop with its try/except
(util.py lines 502-513): a ValueError is caught, logged as a skip and
the loop continues; any other exception propagates. -/
def genStep (fs : FS) (keyword : Option String) (st : PPTState) (i : Nat) :
    Except Exc PPTState :=
  match processIndex fs keyword i with
  | .ok s => .ok ⟨st.slides ++ [s], st.logs⟩
  | .error (.valueError m) =>
      .ok ⟨st.slides, st.logs ++ ["Skipping number " ++ toString i ++ ": " ++ m]⟩
  | .error e => .error e

/-- DataToPPT.generate_ppt (util.py lines 496-518): iterate the
inclusive index range, building slides into the presentation (the final
prs.save writes the document out and is collaborator work). -/
def generate_ppt (fs : FS) (keyword : Option String) (start_num end_num : Nat) :
    Except Exc PPTState :=
  (List.range' start_num (end_num + 1 - start_num)).foldlM (genStep fs keyword) ⟨[], []⟩

/-- Whether a loop-body outcome is one the except clause absorbs: a
success or a ValueError. -/
def okOrSkip {α : Type} : Except Exc α → Bool
  | .ok _ => true
  | .error (.valueError _) => true
  | .error _ => false

/-- What DataToPPT.add_slide lays onto a slide it builds successfully:
the title shape text is File: <fname>; for a .sxm file the pictures are
exactly the buffers process_sxm_file rendered; for a .dat file exactly
the buffers process_dat_file rendered; for a .3ds file NO picture is
laid (process_3ds_file renders its placeholder buffer, but the source
never passes it to add_picture) and the caption text box holds the
fixed 3ds info text. -/
def AddSlideLayout (data : FileData) (sl : Slide) : Prop :=
  sl.title = "File: " ++ data.fname ∧
  (strEndsWith data.fname ".sxm" = true → process_sxm_file data = .ok sl.pictures) ∧
  (strEndsWith data.fname ".sxm" = false → strEndsWith data.fname ".dat" = true →
    process_dat_file data = .ok sl.pictures) ∧
  (strEndsWith data.fname ".sxm" = false → strEndsWith data.fname ".dat" = false →
    strEndsWith data.fname ".3ds" = true →
    sl.pictures = [] ∧ sl.caption = "3DS file parameters")

/-! Concrete fixtures: small filesystems and files used to evaluate the
pipeline on closed inputs. -/

/-- A topography header holding every key get_sxm_parameters reads:
512 x 256 pixels over a 100 nm x 50 nm range, scanned downwards at
0.5 V and 100 pA. -/
def sxmHeaderC : List (String × HVal) :=
  [("scan_pixels", HVal.pair 512 256),
   ("scan_range", HVal.pair (1/10000000) (1/20000000)),
   ("scan_dir", HVal.str "down"),
   ("scan_angle", HVal.num 0),
   ("bias>bias (v)", HVal.num (1/2)),
   ("z-controller>setpoint", HVal.num (1/10000000000)),
   ("rec_time", HVal.str "12:00:00"),
   ("rec_date", HVal.str "05.03.2024")]

/-- Topography file with index 0010 and no demodulated channel. -/
def fileAC : FileData := ⟨"topo_0010.sxm", sxmHeaderC, ["Z"]⟩

/-- Topography file with index 0012 and no demodulated channel. -/
def fileBC : FileData := ⟨"topo_0012.sxm", sxmHeaderC, ["Z"]⟩

/-- Topography file that also records the lock-in channel. -/
def fileDemodC : FileData := ⟨"topo_0013.sxm", sxmHeaderC, ["Z", "LI_Demod_1_X"]⟩

/-- A grid-spectroscopy file (its header is never read). -/
def file3dsC : FileData := ⟨"grid_0005.3ds", [], []⟩

/-- The spec scenario filesystem: files for indices 10 and 12 but none
for index 11. -/
def fsC : FS := ⟨["topo_0010.sxm", "topo_0012.sxm"],
  fun p => if p = "topo_0010.sxm" then fileAC else fileBC⟩

/-- A filesystem whose one topography file parses to an empty header,
so parameter extraction dies with a KeyError. -/
def fsD : FS := ⟨["bad_0010.sxm"], fun p => ⟨p, [], []⟩⟩

/-- A point-spectroscopy header holding every key get_dat_parameters
reads in either branch, with DIFFERENT sweep counts in the bias (3) and
Z (7) sections. -/
def datHeaderC : List (String × HVal) :=
  [("Bias>Bias (V)", HVal.num (1/10)),
   ("Z-Controller>Setpoint", HVal.num (1/10000000000)),
   ("Bias Spectroscopy>Sweep Start (V)", HVal.num (-1)),
   ("Bias Spectroscopy>Sweep End (V)", HVal.num 1),
   ("Bias Spectroscopy>Number of sweeps", HVal.num 3),
   ("Z Spectroscopy>Initial Z-offset (m)", HVal.num 0),
   ("Z Spectroscopy>Sweep distance (m)", HVal.num (1/1000000000)),
   ("Z Spectroscopy>Number of sweeps", HVal.num 7),
   ("Comment01", HVal.str "test"),
   ("Saved Date", HVal.str "05.03.2024 10:11:12")]

/-- A Z-sweep spectroscopy record: its signals contain the key
Z rel (m). -/
def datZC : FileData := ⟨"spec_0020.dat", datHeaderC, ["Z rel (m)", "Current (A)"]⟩

/-- A bias-sweep spectroscopy record: no Z rel (m) signal. -/
def datBiasC : FileData := ⟨"spec_0021.dat", datHeaderC, ["Bias (V)", "Current (A)"]⟩

/-- The parameter dict get_sxm_parameters extracts from sxmHeaderC. -/
def sxmParamsC : List (String × HVal) :=
  [("pixels", HVal.pair 512 256),
   ("range", HVal.pair (1/10000000) (1/20000000)),
   ("direction", HVal.str "down"),
   ("angle", HVal.num 0),
   ("bias", HVal.num (1/2)),
   ("current", HVal.num (1/10000000000)),
   ("scan_time", HVal.str "12:00:00"),
   ("scan_date", HVal.str "2024.03.05"),
   ("aspect_ratio", HVal.num (512 / 256 * (1/20000000 / (1/10000000))))]

/-- The parameter dict get_dat_parameters extracts from datHeaderC in
the Z-sweep branch: sweep_num is assigned twice. -/
def datZParamsC : List (String × HVal) :=
  [("bias", HVal.num (1/10)),
   ("current", HVal.num (1/10000000000)),
   ("sweep_num", HVal.num 3),
   ("offset", HVal.num 0),
   ("sweep_z", HVal.num (1/1000000000)),
   ("sweep_num", HVal.num 7),
   ("comment", HVal.str "test"),
   ("saved_date", HVal.str "2024.03.05_10:11:12")]

/-- The parameter dict get_dat_parameters extracts from datHeaderC in
the bias-sweep branch. -/
def datBiasParamsC : List (String × HVal) :=
  [("bias", HVal.num (1/10)),
   ("current", HVal.num (1/10000000000)),
   ("sweep_start", HVal.num (-1)),
   ("sweep_end", HVal.num 1),
   ("sweep_num", HVal.num 3),
   ("comment", HVal.str "test"),
   ("saved_date", HVal.str "2024.03.05_10:11:12")]

/-! Small laws about the Except monad used to destructure the do-blocks
above, and shape lemmas for the lookup helpers. -/

theorem exceptBind_ok {ε α β : Type} {x : Except ε α} {f : α → Except ε β} {b : β}
    (h : x >>= f = Except.ok b) : ∃ a, x = Except.ok a ∧ f a = Except.ok b := by
  cases x with
  | error e => exact absurd h (by simp [Bind.bind, Except.bind])
  | ok a => exact ⟨a, rfl, by simpa [Bind.bind, Except.bind] using h⟩

theorem ok_bind {ε α β : Type} (a : α) (f : α → Except ε β) :
    (Except.ok a >>= f) = f a := rfl

theorem error_bind {ε α β : Type} (e : ε) (f : α → Except ε β) :
    ((Except.error e : Except ε α) >>= f) = .error e := rfl

theorem hget_ok {h : List (String × HVal)} {k : String} {v : HVal}
    (hh : hget h k = .ok v) : h.lookup k = some v := by
  unfold hget at hh
  cases hl : h.lookup k with
  | none => rw [hl] at hh; exact absurd hh (by simp)
  | some w => rw [hl] at hh; cases hh; rfl

theorem asStr_ok {v : HVal} {s : String} (hh : asStr v = .ok s) : v = HVal.str s := by
  cases v <;> simp [asStr] at hh
  rw [hh]

theorem asNum_ok {v : HVal} {q : ℚ} (hh : asNum v = .ok q) : v = HVal.num q := by
  cases v <;> simp [asNum] at hh
  rw [hh]

theorem asPair_ok {v : HVal} {p : ℚ × ℚ} (hh : asPair v = .ok p) :
    v = HVal.pair p.1 p.2 := by
  cases v <;> simp [asPair] at hh
  rw [← hh]

theorem hgetStr_ok {h : List (String × HVal)} {k : String} {s : String}
    (hh : hgetStr h k = .ok s) : h.lookup k = some (HVal.str s) := by
  unfold hgetStr at hh
  obtain ⟨v, hv, hs⟩ := exceptBind_ok hh
  have hv2 : v = HVal.str s := asStr_ok hs
  subst hv2
  exact hget_ok hv

theorem pure_ok {ε α : Type} {a b : α} (hh : (pure a : Except ε α) = .ok b) : a = b := by
  cases hh; rfl

/-- C4: for every date string in day.month.year form (one that splits
on dots into exactly three pieces) the sxm reformatter returns the
year.month.day form, and the dat reformatter does the analogue on the
date part of a date-space-time stamp; every input that does not split
as expected is returned unchanged, with no error surfaced. -/
theorem format_date_spec :
    (∀ s d m y, pySplit (Char.ofNat 46) s = [d, m, y] →
      format_date s = y ++ "." ++ m ++ "." ++ d) ∧
    (∀ s, (pySplit (Char.ofNat 46) s).length ≠ 3 → format_date s = s) ∧
    (∀ s dp tp d m y, pySplit (Char.ofNat 32) s = [dp, tp] →
      pySplit (Char.ofNat 46) dp = [d, m, y] →
      format_date_dat s = y ++ "." ++ m ++ "." ++ d ++ "_" ++ tp) ∧
    (∀ s, (pySplit (Char.ofNat 32) s).length ≠ 2 → format_date_dat s = s) := by
  refine ⟨?_, ?_, ?_, ?_⟩
  · intro s d m y h
    simp [format_date, h]
  · intro s h
    unfold format_date
    rcases hs : pySplit (Char.ofNat 46) s with _ | ⟨a, _ | ⟨b, _ | ⟨c, _ | ⟨d, t⟩⟩⟩⟩ <;>
      simp_all
  · intro s dp tp d m y h1 h2
    simp [format_date_dat, h1, h2]
  · intro s h
    unfold format_date_dat
    rcases hs : pySplit (Char.ofNat 32) s with _ | ⟨a, _ | ⟨b, _ | ⟨c, t⟩⟩⟩ <;>
      simp_all

/-- C4 witness: the two examples of the spec, plus the dat variants. -/
theorem format_date_spec_witness :
    pySplit (Char.ofNat 46) "05.03.2024" = ["05", "03", "2024"] ∧
    format_date "05.03.2024" = "2024.03.05" ∧
    (pySplit (Char.ofNat 46) "05.03").length ≠ 3 ∧
    format_date "05.03" = "05.03" ∧
    format_date_dat "05.03.2024 10:11:12" = "2024.03.05_10:11:12" ∧
    format_date_dat "05.03.2024" = "05.03.2024" :=
  ⟨by decide, format_date_spec.1 _ "05" "03" "2024" (by decide), by decide,
   format_date_spec.2.1 _ (by decide),
   format_date_spec.2.2.1 _ "05.03.2024" "10:11:12" "05" "03" "2024" (by decide) (by decide),
   format_date_spec.2.2.2 _ (by decide)⟩

theorem nanvar_nonneg (xs : List (Option ℚ)) : 0 ≤ nanvar xs := by
  unfold nanvar
  apply div_nonneg
  · apply List.sum_nonneg
    intro x hx
    simp only [List.mem_map] at hx
    obtain ⟨a, _, rfl⟩ := hx
    positivity
  · positivity

/-- C7: the colour-scale bounds are exactly the pair
(mean - 3 sigma, mean + 3 sigma), where the mean is the mean of the
non-NaN entries and sigma is the nonnegative square root of their mean
squared deviation (the nan-ignoring standard deviation). -/
theorem get_3sigma_limits_spec (xs : List (Option ℚ)) :
    get_3sigma_limits xs =
      (((nanmean xs : ℚ) : ℝ) - 3 * nanstd xs, ((nanmean xs : ℚ) : ℝ) + 3 * nanstd xs) ∧
    0 ≤ nanstd xs ∧
    nanstd xs ^ 2 = ((nanvar xs : ℚ) : ℝ) ∧
    nanmean xs = (nanValues xs).sum / ((nanValues xs).length : ℚ) ∧
    nanvar xs = ((nanValues xs).map fun x => (x - nanmean xs) ^ 2).sum /
      ((nanValues xs).length : ℚ) := by
  refine ⟨?_, Real.sqrt_nonneg _, ?_, rfl, rfl⟩
  · unfold get_3sigma_limits
    ring_nf
  · unfold nanstd
    rw [Real.sq_sqrt]
    exact_mod_cast nanvar_nonneg xs

/-- C1: with exactly one glob match the resolver returns that file (and
no warning); with zero matches it raises the no-file-found ValueError;
with two or more matches, if the directory listing comes back in
lexicographic order (the order the spec ascribes to glob), it returns
the lexicographically first match and warns with the list of all
matches. -/
theorem resolveFile_match_policy (listing : List String) (n : Nat) (kw : Option String) :
    (∀ f, listing.filter (matchesGlob kw (zfill 4 (toString n))) = [f] →
      resolveFile listing n kw = .ok (f, [])) ∧
    ((listing.filter (matchesGlob kw (zfill 4 (toString n))) = []) →
      ∃ msg rest, resolveFile listing n kw = .error (.valueError msg) ∧
        msg = "No file found" ++ rest) ∧
    (2 ≤ (listing.filter (matchesGlob kw (zfill 4 (toString n)))).length →
      listing.Sorted (fun a b => a ≤ b) →
      ∃ f, resolveFile listing n kw =
          .ok (f, listing.filter (matchesGlob kw (zfill 4 (toString n)))) ∧
        f ∈ listing.filter (matchesGlob kw (zfill 4 (toString n))) ∧
        ∀ g ∈ listing.filter (matchesGlob kw (zfill 4 (toString n))), f ≤ g) := by
  refine ⟨?_, ?_, ?_⟩
  · intro f h
    simp only [resolveFile]
    rw [h]
    simp
  · intro h
    simp only [resolveFile]
    rw [h]
    have hlit : ("No file found" : String) ++ " with number " =
        "No file found with number " := by decide
    rcases kw with _ | k
    · refine ⟨"No file found with number " ++ zfill 4 (toString n),
        " with number " ++ zfill 4 (toString n), rfl, ?_⟩
      rw [← String.append_assoc, hlit]
    · by_cases hk : k.isEmpty
      · refine ⟨"No file found with number " ++ zfill 4 (toString n),
          " with number " ++ zfill 4 (toString n), by simp [hk], ?_⟩
        rw [← String.append_assoc, hlit]
      · refine ⟨"No file found with number " ++ zfill 4 (toString n) ++
            " and keyword " ++ k,
          " with number " ++ zfill 4 (toString n) ++ " and keyword " ++ k,
          by simp [hk], ?_⟩
        simp only [← String.append_assoc]
        rw [hlit]
  · intro hlen hsorted
    rcases hfil : listing.filter (matchesGlob kw (zfill 4 (toString n))) with _ | ⟨f, _ | ⟨g, t⟩⟩
    · rw [hfil] at hlen; simp at hlen
    · rw [hfil] at hlen; simp at hlen
    · have hres : resolveFile listing n kw = .ok (f, f :: g :: t) := by
        simp only [resolveFile]
        rw [hfil]
        simp
      have hmin : ∀ g2 ∈ f :: g :: t, f ≤ g2 := by
        have hs2 := hsorted.filter (matchesGlob kw (zfill 4 (toString n)))
        rw [hfil] at hs2
        intro g2 hg2
        rcases List.mem_cons.mp hg2 with rfl | hmem
        · exact le_refl g2
        · exact (List.sorted_cons.mp hs2).1 g2 hmem
      exact ⟨f, hres, List.mem_cons_self f (g :: t), hmin⟩

/-- C1 witness: one match resolves to it; zero matches raise the
no-file-found error; two matches on a sorted listing resolve to the
lexicographically first one with the full match list as warning. -/
theorem resolveFile_match_policy_witness :
    resolveFile ["topo_0010.sxm", "topo_0012.sxm"] 10 none = .ok ("topo_0010.sxm", []) ∧
    (∃ msg rest, resolveFile ["topo_0010.sxm", "topo_0012.sxm"] 11 none =
        .error (.valueError msg) ∧ msg = "No file found" ++ rest) ∧
    (∃ f, resolveFile ["a_0007.sxm", "b_0007.sxm"] 7 none =
        .ok (f, ["a_0007.sxm", "b_0007.sxm"].filter (matchesGlob none (zfill 4 (toString 7)))) ∧
      f ∈ ["a_0007.sxm", "b_0007.sxm"].filter (matchesGlob none (zfill 4 (toString 7))) ∧
      ∀ g ∈ ["a_0007.sxm", "b_0007.sxm"].filter (matchesGlob none (zfill 4 (toString 7))),
        f ≤ g) :=
  ⟨(resolveFile_match_policy ["topo_0010.sxm", "topo_0012.sxm"] 10 none).1 _ (by decide),
   (resolveFile_match_policy ["topo_0010.sxm", "topo_0012.sxm"] 11 none).2.1 (by decide),
   (resolveFile_match_policy ["a_0007.sxm", "b_0007.sxm"] 7 none).2.2 (by decide)
     (by with_unfolding_all decide)⟩

/-- Shape of a successful sxm parameter extraction: the header lookups
must all have succeeded, the pixel and range entries must be pairs, and
the result is the literal dict of util.py lines 111-121. -/
theorem get_sxm_parameters_ok_shape {data : FileData} {ps : List (String × HVal)}
    (hok : get_sxm_parameters data = .ok ps) :
    ∃ px py rx ry sdir sangle bias current stime sdate,
      data.header.lookup "scan_pixels" = some (HVal.pair px py) ∧
      data.header.lookup "scan_range" = some (HVal.pair rx ry) ∧
      data.header.lookup "rec_date" = some (HVal.str sdate) ∧
      ps = [("pixels", HVal.pair px py), ("range", HVal.pair rx ry),
        ("direction", sdir), ("angle", sangle), ("bias", bias),
        ("current", current), ("scan_time", stime),
        ("scan_date", HVal.str (format_date sdate)),
        ("aspect_ratio", HVal.num (px / py * (ry / rx)))] := by
  unfold get_sxm_parameters at hok
  obtain ⟨pixels, h1, hok⟩ := exceptBind_ok hok
  obtain ⟨srange, h2, hok⟩ := exceptBind_ok hok
  obtain ⟨sdir, h3, hok⟩ := exceptBind_ok hok
  obtain ⟨sangle, h4, hok⟩ := exceptBind_ok hok
  obtain ⟨bias, h5, hok⟩ := exceptBind_ok hok
  obtain ⟨current, h6, hok⟩ := exceptBind_ok hok
  obtain ⟨stime, h7, hok⟩ := exceptBind_ok hok
  obtain ⟨sdate, h8, hok⟩ := exceptBind_ok hok
  dsimp only at hok
  obtain ⟨pq, h9, hok⟩ := exceptBind_ok hok
  obtain ⟨px, py⟩ := pq
  have hpq : pixels = HVal.pair px py := asPair_ok h9
  dsimp only at hok
  obtain ⟨rq, h10, hok⟩ := exceptBind_ok hok
  obtain ⟨rx, ry⟩ := rq
  have hrq : srange = HVal.pair rx ry := asPair_ok h10
  dsimp only at hok
  have hps := pure_ok hok
  subst hpq hrq
  exact ⟨px, py, rx, ry, sdir, sangle, bias, current, stime, sdate,
    hget_ok h1, hget_ok h2, hgetStr_ok h8, hps.symm⟩

/-- C6: whenever the header holds pixel counts (px, py) and scan range
(rx, ry), the extracted parameter dict maps aspect_ratio to
(px / py) * (ry / rx). -/
theorem get_sxm_parameters_aspect (data : FileData) (px py rx ry : ℚ)
    (ps : List (String × HVal))
    (hpix : data.header.lookup "scan_pixels" = some (HVal.pair px py))
    (hrange : data.header.lookup "scan_range" = some (HVal.pair rx ry))
    (hok : get_sxm_parameters data = .ok ps) :
    pyGet ps "aspect_ratio" = some (HVal.num (px / py * (ry / rx))) := by
  obtain ⟨px2, py2, rx2, ry2, sdir, sangle, bias, current, stime, sdate,
    h1, h2, h3, hps⟩ := get_sxm_parameters_ok_shape hok
  rw [h1] at hpix
  rw [h2] at hrange
  have hpx : px2 = px ∧ py2 = py := by
    have := Option.some.inj hpix
    exact ⟨by cases this; rfl, by cases this; rfl⟩
  have hrx : rx2 = rx ∧ ry2 = ry := by
    have := Option.some.inj hrange
    exact ⟨by cases this; rfl, by cases this; rfl⟩
  obtain ⟨hpx1, hpx2⟩ := hpx
  obtain ⟨hrx1, hrx2⟩ := hrx
  subst hpx1 hpx2 hrx1 hrx2 hps
  rfl

set_option maxRecDepth 10000 in
/-- C6 witness: 512 x 256 pixels over a 100 nm x 50 nm range give
aspect ratio (512/256) * (50/100) = 1. -/
theorem get_sxm_parameters_aspect_witness :
    fileAC.header.lookup "scan_pixels" = some (HVal.pair 512 256) ∧
    get_sxm_parameters fileAC = .ok sxmParamsC ∧
    pyGet sxmParamsC "aspect_ratio" =
      some (HVal.num (512 / 256 * (1/20000000 / (1/10000000)))) ∧
    (512 / 256 * ((1 : ℚ)/20000000 / (1/10000000))) = 1 :=
  ⟨rfl, by with_unfolding_all rfl,
   get_sxm_parameters_aspect fileAC 512 256 (1/10000000) (1/20000000) sxmParamsC
     rfl (by with_unfolding_all rfl) (by with_unfolding_all rfl),
   by with_unfolding_all rfl⟩

/-- Shape of a successful dat extraction in the Z-sweep branch: the
literal dict of util.py lines 148-157, with sweep_num assigned twice
(first the Bias Spectroscopy count, then the Z Spectroscopy count). -/
theorem get_dat_parameters_ok_z {data : FileData} {ps : List (String × HVal)}
    (hz : "Z rel (m)" ∈ data.signals)
    (hok : get_dat_parameters data = .ok ps) :
    ∃ bias current snb off sz snz cm sd,
      data.header.lookup "Z Spectroscopy>Number of sweeps" = some snz ∧
      data.header.lookup "Bias Spectroscopy>Number of sweeps" = some snb ∧
      ps = [("bias", bias), ("current", current), ("sweep_num", snb),
        ("offset", off), ("sweep_z", sz), ("sweep_num", snz), ("comment", cm),
        ("saved_date", HVal.str (format_date_dat sd))] := by
  unfold get_dat_parameters at hok
  rw [if_pos hz] at hok
  obtain ⟨bias, h1, hok⟩ := exceptBind_ok hok
  obtain ⟨current, h2, hok⟩ := exceptBind_ok hok
  obtain ⟨snb, h3, hok⟩ := exceptBind_ok hok
  obtain ⟨off, h4, hok⟩ := exceptBind_ok hok
  obtain ⟨sz, h5, hok⟩ := exceptBind_ok hok
  obtain ⟨snz, h6, hok⟩ := exceptBind_ok hok
  obtain ⟨cm, h7, hok⟩ := exceptBind_ok hok
  obtain ⟨sd, h8, hok⟩ := exceptBind_ok hok
  exact ⟨bias, current, snb, off, sz, snz, cm, sd, hget_ok h6, hget_ok h3,
    (pure_ok hok).symm⟩

/-- Shape of a successful dat extraction in the bias-sweep branch: the
literal dict of util.py lines 160-168. -/
theorem get_dat_parameters_ok_bias {data : FileData} {ps : List (String × HVal)}
    (hz : "Z rel (m)" ∉ data.signals)
    (hok : get_dat_parameters data = .ok ps) :
    ∃ bias current sst sen sn cm sd,
      data.header.lookup "Bias Spectroscopy>Number of sweeps" = some sn ∧
      ps = [("bias", bias), ("current", current), ("sweep_start", sst),
        ("sweep_end", sen), ("sweep_num", sn), ("comment", cm),
        ("saved_date", HVal.str (format_date_dat sd))] := by
  unfold get_dat_parameters at hok
  rw [if_neg hz] at hok
  obtain ⟨bias, h1, hok⟩ := exceptBind_ok hok
  obtain ⟨current, h2, hok⟩ := exceptBind_ok hok
  obtain ⟨sst, h3, hok⟩ := exceptBind_ok hok
  obtain ⟨sen, h4, hok⟩ := exceptBind_ok hok
  obtain ⟨sn, h5, hok⟩ := exceptBind_ok hok
  obtain ⟨cm, h6, hok⟩ := exceptBind_ok hok
  obtain ⟨sd, h7, hok⟩ := exceptBind_ok hok
  exact ⟨bias, current, sst, sen, sn, cm, sd, hget_ok h5, (pure_ok hok).symm⟩

/-- C5: a successful dat extraction lands in the Z-sweep branch (it has
the offset and sweep-distance entries) exactly when the signals mapping
contains the key Z rel (m), and in the bias-sweep branch (sweep start
and end entries) exactly when it does not; both branches produce a
sweep count. -/
theorem get_dat_parameters_branch (data : FileData) (ps : List (String × HVal))
    (hok : get_dat_parameters data = .ok ps) :
    (("Z rel (m)" ∈ data.signals) ↔ hasKey ps "offset" ∧ hasKey ps "sweep_z") ∧
    (("Z rel (m)" ∉ data.signals) ↔ hasKey ps "sweep_start" ∧ hasKey ps "sweep_end") ∧
    hasKey ps "sweep_num" := by
  by_cases hz : "Z rel (m)" ∈ data.signals
  · obtain ⟨b, c, snb, off, sz, snz, cm, sd, h1, h2, hps⟩ := get_dat_parameters_ok_z hz hok
    subst hps
    exact ⟨iff_of_true hz (by simp [hasKey]),
      iff_of_false (not_not_intro hz) (by simp [hasKey]), by simp [hasKey]⟩
  · obtain ⟨b, c, sst, sen, sn, cm, sd, h1, hps⟩ := get_dat_parameters_ok_bias hz hok
    subst hps
    exact ⟨iff_of_false hz (by simp [hasKey]), iff_of_true hz (by simp [hasKey]),
      by simp [hasKey]⟩

/-- C5 witness: the Z-sweep record datZC selects the Z branch and the
bias-sweep record datBiasC selects the bias branch. -/
theorem get_dat_parameters_branch_witness :
    get_dat_parameters datZC = .ok datZParamsC ∧
    ((("Z rel (m)" ∈ datZC.signals) ↔
        hasKey datZParamsC "offset" ∧ hasKey datZParamsC "sweep_z") ∧
      (("Z rel (m)" ∉ datZC.signals) ↔
        hasKey datZParamsC "sweep_start" ∧ hasKey datZParamsC "sweep_end") ∧
      hasKey datZParamsC "sweep_num") ∧
    get_dat_parameters datBiasC = .ok datBiasParamsC ∧
    ((("Z rel (m)" ∈ datBiasC.signals) ↔
        hasKey datBiasParamsC "offset" ∧ hasKey datBiasParamsC "sweep_z") ∧
      (("Z rel (m)" ∉ datBiasC.signals) ↔
        hasKey datBiasParamsC "sweep_start" ∧ hasKey datBiasParamsC "sweep_end") ∧
      hasKey datBiasParamsC "sweep_num") :=
  ⟨by with_unfolding_all rfl,
   get_dat_parameters_branch datZC datZParamsC (by with_unfolding_all rfl),
   by with_unfolding_all rfl,
   get_dat_parameters_branch datBiasC datBiasParamsC (by with_unfolding_all rfl)⟩

/-- C10: on a Z-sweep record the extracted dict assigns the sweep_num
key twice, and its value is the Z Spectroscopy sweep count (the later
assignment), not the Bias Spectroscopy one. -/
theorem get_dat_parameters_sweep_num (data : FileData) (ps : List (String × HVal))
    (zNum : HVal)
    (hz : "Z rel (m)" ∈ data.signals)
    (hzn : data.header.lookup "Z Spectroscopy>Number of sweeps" = some zNum)
    (hok : get_dat_parameters data = .ok ps) :
    pyGet ps "sweep_num" = some zNum ∧
    (ps.map Prod.fst).count "sweep_num" = 2 := by
  obtain ⟨b, c, snb, off, sz, snz, cm, sd, h1, h2, hps⟩ := get_dat_parameters_ok_z hz hok
  rw [h1] at hzn
  cases Option.some.inj hzn
  subst hps
  exact ⟨rfl, by simp⟩

/-- C10 witness: datZC has bias sweep count 3 and Z sweep count 7; the
extracted sweep_num is 7. -/
theorem get_dat_parameters_sweep_num_witness :
    datZC.header.lookup "Bias Spectroscopy>Number of sweeps" = some (HVal.num 3) ∧
    datZC.header.lookup "Z Spectroscopy>Number of sweeps" = some (HVal.num 7) ∧
    pyGet datZParamsC "sweep_num" = some (HVal.num 7) ∧
    (datZParamsC.map Prod.fst).count "sweep_num" = 2 :=
  ⟨rfl, rfl,
   (get_dat_parameters_sweep_num datZC datZParamsC (HVal.num 7) (by decide) rfl
     (by with_unfolding_all rfl)).1,
   (get_dat_parameters_sweep_num datZC datZParamsC (HVal.num 7) (by decide) rfl
     (by with_unfolding_all rfl)).2⟩

/-- C8: a successful topography rendering produces exactly the three
buffers height map, derivative and demodulation map when the signals
contain LI_Demod_1_X, and exactly the two buffers height map and
derivative when they do not. -/
theorem process_sxm_file_images (data : FileData) (imgs : List Img)
    (hok : process_sxm_file data = .ok imgs) :
    (("LI_Demod_1_X" ∈ data.signals) ↔
      imgs = [Img.sxmTopo, Img.sxmDeriv, Img.sxmDemod]) ∧
    (("LI_Demod_1_X" ∉ data.signals) ↔ imgs = [Img.sxmTopo, Img.sxmDeriv]) := by
  unfold process_sxm_file at hok
  obtain ⟨params, h1, hok⟩ := exceptBind_ok hok
  by_cases hd : "LI_Demod_1_X" ∈ data.signals
  · rw [if_pos hd] at hok
    cases pure_ok hok
    exact ⟨iff_of_true hd rfl, iff_of_false (not_not_intro hd) (by simp)⟩
  · rw [if_neg hd] at hok
    cases pure_ok hok
    exact ⟨iff_of_false hd (by simp), iff_of_true hd rfl⟩

set_option maxRecDepth 10000 in
/-- C8 witness: the demod-carrying file renders three buffers, the
plain file two. -/
theorem process_sxm_file_images_witness :
    process_sxm_file fileDemodC = .ok [Img.sxmTopo, Img.sxmDeriv, Img.sxmDemod] ∧
    process_sxm_file fileAC = .ok [Img.sxmTopo, Img.sxmDeriv] ∧
    ((("LI_Demod_1_X" ∈ fileDemodC.signals) ↔
        [Img.sxmTopo, Img.sxmDeriv, Img.sxmDemod] =
          [Img.sxmTopo, Img.sxmDeriv, Img.sxmDemod]) ∧
      (("LI_Demod_1_X" ∉ fileDemodC.signals) ↔
        [Img.sxmTopo, Img.sxmDeriv, Img.sxmDemod] = [Img.sxmTopo, Img.sxmDeriv])) :=
  ⟨by with_unfolding_all rfl, by with_unfolding_all rfl,
   process_sxm_file_images fileDemodC [Img.sxmTopo, Img.sxmDeriv, Img.sxmDemod]
     (by with_unfolding_all rfl)⟩

/-- Shape of every successfully built slide (helper shared by the
layout and batch theorems). -/
theorem addSlide_ok_shape {data : FileData} {sl : Slide}
    (hok : add_slide data = .ok sl) : AddSlideLayout data sl := by
  unfold add_slide at hok
  by_cases h1 : strEndsWith data.fname ".sxm" = true
  · rw [if_pos h1] at hok
    obtain ⟨params, hp, hok⟩ := exceptBind_ok hok
    obtain ⟨imgs, hi, hok⟩ := exceptBind_ok hok
    obtain ⟨info, hn, hok⟩ := exceptBind_ok hok
    cases pure_ok hok
    exact ⟨rfl, fun _ => hi, fun hf _ => absurd h1 (by simp [hf]),
      fun hf _ _ => absurd h1 (by simp [hf])⟩
  · rw [if_neg h1] at hok
    by_cases h2 : strEndsWith data.fname ".dat" = true
    · rw [if_pos h2] at hok
      obtain ⟨params, hp, hok⟩ := exceptBind_ok hok
      obtain ⟨imgs, hi, hok⟩ := exceptBind_ok hok
      obtain ⟨info, hn, hok⟩ := exceptBind_ok hok
      cases pure_ok hok
      exact ⟨rfl, fun hf => absurd hf (by simp [Bool.not_eq_true] at h1; simp [h1]),
        fun _ _ => hi, fun _ hf _ => absurd h2 (by simp [hf])⟩
    · rw [if_neg h2] at hok
      by_cases h3 : strEndsWith data.fname ".3ds" = true
      · rw [if_pos h3] at hok
        obtain ⟨params, hp, hok⟩ := exceptBind_ok hok
        dsimp only at hok
        obtain ⟨img, hg, hok⟩ := exceptBind_ok hok
        cases pure_ok hok
        refine ⟨rfl, fun hf => absurd hf ?_, fun _ hf => absurd hf ?_,
          fun _ _ _ => ⟨rfl, rfl⟩⟩
        · simp [Bool.not_eq_true] at h1; simp [h1]
        · simp [Bool.not_eq_true] at h2; simp [h2]
      · rw [if_neg h3] at hok
        exact absurd hok (by simp)

/-- C9 (amended): every successfully built slide is titled with its
file name and carries the rendered images of its format together with
the caption text box, EXCEPT that for a grid-spectroscopy (.3ds) file
the rendered placeholder buffer is never added to the slide: the slide
holds no picture at all, only the title and the caption text box. -/
theorem add_slide_layout (data : FileData) (sl : Slide)
    (hok : add_slide data = .ok sl) : AddSlideLayout data sl :=
  addSlide_ok_shape hok

/-- C9 counterexample: on a concrete .3ds file the placeholder buffer
is rendered by process_3ds_file, yet the finished slide contains no
picture, contradicting the claim that the placeholder image is laid
onto the slide. -/
theorem add_slide_3ds_no_picture :
    process_3ds_file file3dsC = .ok Img.threeDS ∧
    add_slide file3dsC = .ok ⟨"File: grid_0005.3ds", [], "3DS file parameters"⟩ :=
  ⟨rfl, by with_unfolding_all rfl⟩

/-- C9 witness: the layout theorem applied to the concrete .3ds file. -/
theorem add_slide_layout_witness :
    add_slide file3dsC = .ok ⟨"File: grid_0005.3ds", [], "3DS file parameters"⟩ ∧
    AddSlideLayout file3dsC ⟨"File: grid_0005.3ds", [], "3DS file parameters"⟩ :=
  ⟨by with_unfolding_all rfl,
   add_slide_layout file3dsC ⟨"File: grid_0005.3ds", [], "3DS file parameters"⟩
     (by with_unfolding_all rfl)⟩

/-- The resolver can only fail with a ValueError. -/
theorem resolveFile_error {l : List String} {n : Nat} {kw : Option String} {e : Exc}
    (h : resolveFile l n kw = .error e) : ∃ m, e = .valueError m := by
  simp only [resolveFile] at h
  rcases hf : l.filter (matchesGlob kw (zfill 4 (toString n))) with _ | ⟨f, rest⟩
  · rw [hf] at h
    exact ⟨_, (Except.error.inj h).symm⟩
  · rw [hf] at h
    exact absurd h (by simp)

/-- C2: the loop body outcome decides the batch run: a ValueError from
an index is converted into a skip log entry and the fold continues with
the remaining indices, while any other error aborts the whole fold;
generate_ppt is exactly that fold over the inclusive range, and the
loader itself only ever raises ValueError (its no-file-found and
unsupported-extension failures). -/
theorem generate_ppt_error_policy :
    (∀ fs kw (st : PPTState) i rest m,
      processIndex fs kw i = .error (.valueError m) →
      List.foldlM (genStep fs kw) st (i :: rest) =
        List.foldlM (genStep fs kw)
          ⟨st.slides, st.logs ++ ["Skipping number " ++ toString i ++ ": " ++ m]⟩ rest) ∧
    (∀ fs kw (st : PPTState) i rest e, processIndex fs kw i = .error e →
      (∀ m, e ≠ Exc.valueError m) →
      List.foldlM (genStep fs kw) st (i :: rest) = .error e) ∧
    (∀ fs kw s e, generate_ppt fs kw s e =
      List.foldlM (genStep fs kw) ⟨[], []⟩ (List.range' s (e + 1 - s))) ∧
    (∀ fs i kw e, nanonisData fs i kw = .error e → ∃ m, e = .valueError m) := by
  refine ⟨?_, ?_, fun _ _ _ _ => rfl, ?_⟩
  · intro fs kw st i rest m hpi
    show (genStep fs kw st i >>= fun st2 => List.foldlM (genStep fs kw) st2 rest) = _
    unfold genStep
    rw [hpi]
    rfl
  · intro fs kw st i rest e hpi hne
    show (genStep fs kw st i >>= fun st2 => List.foldlM (genStep fs kw) st2 rest) = _
    unfold genStep
    rw [hpi]
    cases e with
    | valueError m => exact absurd rfl (hne m)
    | keyError k => rfl
    | typeError m => rfl
    | nameError m => rfl
  · intro fs i kw e h
    unfold nanonisData at h
    cases hres : resolveFile fs.listing i kw with
    | error e2 =>
      rw [hres, error_bind] at h
      obtain ⟨m, hm⟩ := resolveFile_error hres
      exact ⟨m, by rw [← Except.error.inj h, hm]⟩
    | ok pr =>
      obtain ⟨path, w⟩ := pr
      rw [hres, ok_bind] at h
      dsimp only at h
      by_cases hx : (splitext path).2 = ".sxm" ∨ (splitext path).2 = ".dat" ∨
          (splitext path).2 = ".3ds"
      · rw [if_pos hx] at h
        have hpure : (pure (fs.load path) : Except Exc FileData) =
            .ok (fs.load path) := rfl
        rw [hpure] at h
        exact absurd h (by simp)
      · rw [if_neg hx] at h
        exact ⟨_, (Except.error.inj h).symm⟩

set_option maxRecDepth 10000 in
/-- C2 witness: index 11 of the scenario filesystem has no file, so its
ValueError is logged as a skip and the fold proceeds; the bad-header
filesystem dies with a KeyError at index 10, and the whole fold over
10..11 aborts with that error. -/
theorem generate_ppt_error_policy_witness :
    processIndex fsC none 11 =
      .error (.valueError "No file found with number 0011") ∧
    List.foldlM (genStep fsC none) ⟨[], []⟩ [11] =
      List.foldlM (genStep fsC none)
        ⟨[], [] ++ ["Skipping number " ++ toString 11 ++ ": " ++
          "No file found with number 0011"]⟩ [] ∧
    processIndex fsD none 10 = .error (.keyError "scan_pixels") ∧
    List.foldlM (genStep fsD none) ⟨[], []⟩ [10, 11] =
      .error (.keyError "scan_pixels") :=
  ⟨by with_unfolding_all rfl,
   generate_ppt_error_policy.1 fsC none ⟨[], []⟩ 11 []
     "No file found with number 0011" (by with_unfolding_all rfl),
   by with_unfolding_all rfl,
   generate_ppt_error_policy.2.1 fsD none ⟨[], []⟩ 10 [11] (.keyError "scan_pixels")
     (by with_unfolding_all rfl) (fun m h => Exc.noConfusion h)⟩

/-- The fold underlying generate_ppt: when every index in the list
either loads or fails with the caught ValueError, the run succeeds and
appends exactly one slide per successful index, in list order. -/
theorem foldlM_genStep_slides (fs : FS) (kw : Option String) (l : List Nat) :
    ∀ st : PPTState, (∀ i ∈ l, okOrSkip (processIndex fs kw i) = true) →
    (List.foldlM (genStep fs kw) st l).map PPTState.slides =
      .ok (st.slides ++ l.filterMap fun i => (processIndex fs kw i).toOption) := by
  induction l with
  | nil =>
    intro st h
    simp [List.foldlM, Except.map, pure, Except.pure]
  | cons i t ih =>
    intro st h
    have hstep : List.foldlM (genStep fs kw) st (i :: t) =
        genStep fs kw st i >>= fun st2 => List.foldlM (genStep fs kw) st2 t := rfl
    rw [hstep]
    have hi := h i (List.mem_cons_self i t)
    cases hpi : processIndex fs kw i with
    | ok s =>
      have hg : genStep fs kw st i = .ok ⟨st.slides ++ [s], st.logs⟩ := by
        unfold genStep; rw [hpi]
      rw [hg, ok_bind, ih _ (fun j hj => h j (List.mem_cons_of_mem i hj))]
      simp [List.filterMap_cons, hpi, Except.toOption]
    | error e =>
      cases e with
      | valueError m =>
        have hg : genStep fs kw st i = .ok ⟨st.slides,
            st.logs ++ ["Skipping number " ++ toString i ++ ": " ++ m]⟩ := by
          unfold genStep; rw [hpi]
        rw [hg, ok_bind, ih _ (fun j hj => h j (List.mem_cons_of_mem i hj))]
        simp [List.filterMap_cons, hpi, Except.toOption]
      | keyError k => rw [hpi] at hi; exact absurd hi (by simp [okOrSkip])
      | typeError m => rw [hpi] at hi; exact absurd hi (by simp [okOrSkip])
      | nameError nm => rw [hpi] at hi; exact absurd hi (by simp [okOrSkip])

/-- C3: when every index of the inclusive range either loads or is
skipped by the caught ValueError, the batch run succeeds and the
document holds exactly one slide per successfully loaded file, in
ascending index order, each titled with its file name. -/
theorem generate_ppt_slides_per_file (fs : FS) (kw : Option String) (s e : Nat)
    (h : ∀ i ∈ List.range' s (e + 1 - s), okOrSkip (processIndex fs kw i) = true) :
    (generate_ppt fs kw s e).map PPTState.slides =
      .ok ((List.range' s (e + 1 - s)).filterMap fun i =>
        (processIndex fs kw i).toOption) ∧
    ∀ data sl, add_slide data = .ok sl → sl.title = "File: " ++ data.fname := by
  refine ⟨?_, fun data sl hok => (addSlide_ok_shape hok).1⟩
  have hfold := foldlM_genStep_slides fs kw (List.range' s (e + 1 - s)) ⟨[], []⟩ h
  simpa [generate_ppt] using hfold

set_option maxRecDepth 10000 in
/-- C3 witness: over indices 10..12 with no file at index 11, the run
completes, the document has exactly the two slides for the files of
indices 10 and 12 in that order, titled with their file names. -/
theorem generate_ppt_slides_per_file_witness :
    (∀ i ∈ List.range' 10 (12 + 1 - 10), okOrSkip (processIndex fsC none i) = true) ∧
    (generate_ppt fsC none 10 12).map PPTState.slides =
      .ok ((List.range' 10 (12 + 1 - 10)).filterMap fun i =>
        (processIndex fsC none i).toOption) ∧
    ((List.range' 10 (12 + 1 - 10)).filterMap fun i =>
        (processIndex fsC none i).toOption).map Slide.title =
      ["File: topo_0010.sxm", "File: topo_0012.sxm"] ∧
    ((List.range' 10 (12 + 1 - 10)).filterMap fun i =>
        (processIndex fsC none i).toOption).length = 2 :=
  ⟨by with_unfolding_all decide,
   (generate_ppt_slides_per_file fsC none 10 12 (by with_unfolding_all decide)).1,
   by with_unfolding_all rfl,
   by with_unfolding_all rfl⟩
